import Mathlib

/-!
Shallow embedding of the connection lifecycle controller of
src/src/handlers (the TypeScript connection handler, src/unnamed/part_014)
of the stealth-companion repository, together with proofs about the claims
of its specification.

The controller is a module with mutable state: two timer handles
(connectionTimeout, reconnectionTimeout), the flags isReconnecting and
isConnected, the shared retry counter RECONNECT_CONFIG.currentRetries, and
the timestamps lastConnectionAttempt and lastConnectingEvent.  We embed the
mutable module state as the structure ConnState and each exported or
internal function as a pure state transformer.  JavaScript timestamps
(Date.now() readings, milliseconds) are embedded as Int; every entry point
that reads the clock takes the reading as an explicit argument.

A JavaScript timer handle variable has three observable situations: it holds
null, it holds a handle whose callback is still pending, or it holds a stale
handle whose callback has already run (setTimeout never nulls the variable
when it fires).  Truthiness tests such as (!connectionTimeout) distinguish
only null from non-null, so the embedding uses a three-valued TimerHandle.

The asynchronous function performReconnection suspends at its dynamic
import; the part before the suspension (dropping the old client and calling
the Client constructor) and the part after it (attaching listeners and
arming the establishment timeout) are embedded as separate events of the
transition system, so that notifications interleaving at the suspension
point are representable.  Exceptions inside the try block of
performReconnection are represented by dedicated failure events whose
semantics is the catch block of the source.
-/

namespace StealthCompanion

/-- State of a JavaScript timeout-handle variable: null, holding a handle
whose callback is still pending (with the delay it was armed with), or
holding a stale handle whose callback already ran. -/
inductive TimerHandle where
  | null : TimerHandle
  | pending (delay : Int) : TimerHandle
  | fired (delay : Int) : TimerHandle
deriving Repr, DecidableEq

/-- Truthiness of the handle variable: non-null. -/
def TimerHandle.isSet : TimerHandle → Bool
  | TimerHandle.null => false
  | TimerHandle.pending _ => true
  | TimerHandle.fired _ => true

/-- RECONNECT_CONFIG of src/src/config/index.ts (the mutable currentRetries
field lives in ConnState instead, since the handler mutates it). -/
structure ReconnectConfig where
  maxRetries : Nat
  retryDelay : Int
  connectionTimeout : Int
deriving Repr, DecidableEq

/-- MIN_CONNECTION_INTERVAL of the connection handler: minimum time between
connection attempts, in milliseconds. -/
def MIN_CONNECTION_INTERVAL : Int := 5000

/-- MIN_CONNECTING_EVENT_INTERVAL of the connection handler: minimum time
between processing two connecting events, in milliseconds. -/
def MIN_CONNECTING_EVENT_INTERVAL : Int := 1000

/-- The mutable module-level state of the connection handler, plus
RECONNECT_CONFIG.currentRetries, plus the control flag pendingRebind that
records that performReconnection is suspended at its await point. -/
structure ConnState where
  connectionTimeout : TimerHandle
  reconnectionTimeout : TimerHandle
  currentClient : Bool
  isReconnecting : Bool
  isConnected : Bool
  currentRetries : Nat
  lastConnectionAttempt : Int
  lastConnectingEvent : Int
  pendingRebind : Bool
deriving Repr, DecidableEq

/-- Module-load values of the state variables. -/
def initialState : ConnState :=
  { connectionTimeout := TimerHandle.null
    reconnectionTimeout := TimerHandle.null
    currentClient := false
    isReconnecting := false
    isConnected := false
    currentRetries := 0
    lastConnectionAttempt := 0
    lastConnectingEvent := 0
    pendingRebind := false }

/-- clearConnectionTimeout of the source: null the establishment-timeout
handle (clearing a null handle is a no-op in the source as well). -/
def clearConnectionTimeout (s : ConnState) : ConnState :=
  { s with connectionTimeout := TimerHandle.null }

/-- clearReconnectionTimeout of the source: null the reconnection-timeout
handle. -/
def clearReconnectionTimeout (s : ConnState) : ConnState :=
  { s with reconnectionTimeout := TimerHandle.null }

/-- setConnectionEstablishmentTimeout of the source: clear any existing
establishment timer, then arm a new one for timeoutMs. -/
def setConnectionEstablishmentTimeout (timeoutMs : Int) (s : ConnState) : ConnState :=
  { clearConnectionTimeout s with connectionTimeout := TimerHandle.pending timeoutMs }

/-- scheduleReconnection of the source, with now the Date.now() reading it
makes.  Returns unchanged under the single-flight guard or when the retry
budget is exhausted; otherwise computes the total delay, increments the
retry counter, raises isReconnecting, clears any old reconnection timer and
arms a new one for the total delay. -/
def scheduleReconnection (cfg : ReconnectConfig) (now : Int) (s : ConnState) : ConnState :=
  if s.isReconnecting then s
  else if cfg.maxRetries ≤ s.currentRetries then s
  else
    let timeSinceLastAttempt := now - s.lastConnectionAttempt
    let minDelay := max 0 (MIN_CONNECTION_INTERVAL - timeSinceLastAttempt)
    let totalDelay := cfg.retryDelay + minDelay
    let s1 := { s with currentRetries := s.currentRetries + 1, isReconnecting := true }
    let s2 := clearReconnectionTimeout s1
    { s2 with reconnectionTimeout := TimerHandle.pending totalDelay }

/-- The body of the establishment-timeout callback in
setConnectionEstablishmentTimeout: trigger a reconnection only when neither
connected nor already reconnecting. -/
def connectionTimeoutCallback (cfg : ReconnectConfig) (now : Int) (s : ConnState) : ConnState :=
  if s.isConnected = false ∧ s.isReconnecting = false then
    scheduleReconnection cfg now s
  else s

/-- The first half of performReconnection, up to the await of the dynamic
import: record the attempt timestamp, drop the old client reference and
construct the new client (this event is the non-throwing case). -/
def performReconnectionStart (now : Int) (s : ConnState) : ConnState :=
  { s with lastConnectionAttempt := now, currentClient := true, pendingRebind := true }

/-- The second half of performReconnection after the await resumes, in the
non-throwing case: attach the event listeners (external effect) and arm a
fresh establishment timeout. -/
def performReconnectionResume (cfg : ReconnectConfig) (s : ConnState) : ConnState :=
  setConnectionEstablishmentTimeout cfg.connectionTimeout { s with pendingRebind := false }

/-- The catch block of performReconnection, with nowS the Date.now() reading
of the renewed scheduling call: lower isReconnecting and call
scheduleReconnection again. -/
def performReconnectionCatch (cfg : ReconnectConfig) (nowS : Int) (s : ConnState) : ConnState :=
  scheduleReconnection cfg nowS { s with isReconnecting := false }

/-- handleConnection of the source: the status-notification entry point,
with now the Date.now() reading made while processing the notification. -/
def handleConnection (cfg : ReconnectConfig) (status : String) (now : Int) (s : ConnState) : ConnState :=
  if status = "connecting" then
    let timeSinceLastConnectingEvent := now - s.lastConnectingEvent
    if timeSinceLastConnectingEvent < MIN_CONNECTING_EVENT_INTERVAL then s
    else
      let s1 := { s with lastConnectingEvent := now }
      if s1.connectionTimeout.isSet = false ∧ s1.isConnected = false then
        setConnectionEstablishmentTimeout cfg.connectionTimeout s1
      else s1
  else if status = "open" then
    { clearReconnectionTimeout (clearConnectionTimeout s) with
        isConnected := true, isReconnecting := false, currentRetries := 0 }
  else if status = "close" then
    let s1 := clearReconnectionTimeout (clearConnectionTimeout { s with isConnected := false })
    if s1.isReconnecting then s1 else scheduleReconnection cfg now s1
  else if status = "connected" then
    { clearReconnectionTimeout (clearConnectionTimeout s) with
        isConnected := true, isReconnecting := false, currentRetries := 0 }
  else if status = "disconnected" then
    let s1 := clearReconnectionTimeout (clearConnectionTimeout { s with isConnected := false })
    if s1.isReconnecting then s1 else scheduleReconnection cfg now s1
  else
    if s.isConnected = false ∧ s.isReconnecting = false then
      scheduleReconnection cfg now (clearReconnectionTimeout (clearConnectionTimeout s))
    else s

/-- initializeConnectionMonitoring of the source, with now the Date.now()
reading it stores into lastConnectionAttempt. -/
def initializeConnectionMonitoring (now : Int) (s : ConnState) : ConnState :=
  { s with currentClient := true
           isConnected := false
           isReconnecting := false
           currentRetries := 0
           lastConnectionAttempt := now
           lastConnectingEvent := 0
           connectionTimeout := TimerHandle.null
           reconnectionTimeout := TimerHandle.null }

/-- The events that drive the controller: a status notification, the firing
of either timer (the reconnection firing split into the non-throwing start,
and a variant where the client constructor throws), the resumption of a
suspended performReconnection (non-throwing, or with the listener
attachment throwing), and re-initialization.  Failure events carry the
separate Date.now() reading of the renewed scheduling call. -/
inductive Event where
  | notify (status : String) (now : Int)
  | estFire (now : Int)
  | reconFireOk (now : Int)
  | reconFireFail (now nowS : Int)
  | resumeOk
  | resumeFail (nowS : Int)
  | initMonitoring (now : Int)
deriving Repr, DecidableEq

/-- One step of the controller: none when the event is not enabled (a timer
can fire only while pending, a resumption only while a rebind is
suspended). -/
def step (cfg : ReconnectConfig) (s : ConnState) : Event → Option ConnState
  | Event.notify status now => some (handleConnection cfg status now s)
  | Event.estFire now =>
      match s.connectionTimeout with
      | TimerHandle.pending d =>
          some (connectionTimeoutCallback cfg now { s with connectionTimeout := TimerHandle.fired d })
      | _ => none
  | Event.reconFireOk now =>
      match s.reconnectionTimeout with
      | TimerHandle.pending d =>
          some (performReconnectionStart now { s with reconnectionTimeout := TimerHandle.fired d })
      | _ => none
  | Event.reconFireFail now nowS =>
      match s.reconnectionTimeout with
      | TimerHandle.pending d =>
          some (performReconnectionCatch cfg nowS
            { s with reconnectionTimeout := TimerHandle.fired d
                     lastConnectionAttempt := now
                     currentClient := false })
      | _ => none
  | Event.resumeOk =>
      if s.pendingRebind then some (performReconnectionResume cfg s) else none
  | Event.resumeFail nowS =>
      if s.pendingRebind then
        some (performReconnectionCatch cfg nowS { s with pendingRebind := false })
      else none
  | Event.initMonitoring now => some (initializeConnectionMonitoring now s)

/-- Run a list of events from a state, failing when some event is not
enabled. -/
def runTrace (cfg : ReconnectConfig) : ConnState → List Event → Option ConnState
  | s, [] => some s
  | s, e :: es =>
      match step cfg s e with
      | some s1 => runTrace cfg s1 es
      | none => none

/-- States reachable from the module-load state by any sequence of
notifications, timer firings, rebind resumptions and re-initializations. -/
inductive Reachable (cfg : ReconnectConfig) : ConnState → Prop where
  | base : Reachable cfg initialState
  | next {s e s1} : Reachable cfg s → step cfg s e = some s1 → Reachable cfg s1

/-- Events whose processing resets the retry counter by design: the two
Succeeded notification tokens and re-initialization. -/
def Event.isSucceededOrInit : Event → Bool
  | Event.notify "open" _ => true
  | Event.notify "connected" _ => true
  | Event.initMonitoring _ => true
  | _ => false

/-- Events that can lower isReconnecting: the two Succeeded notification
tokens, the two rebind-failure events (whose catch block clears the flag),
and re-initialization. -/
def Event.isEscape : Event → Bool
  | Event.notify "open" _ => true
  | Event.notify "connected" _ => true
  | Event.reconFireFail _ _ => true
  | Event.resumeFail _ => true
  | Event.initMonitoring _ => true
  | _ => false

/-- Events that resume a suspended performReconnection. -/
def Event.isResume : Event → Bool
  | Event.resumeOk => true
  | Event.resumeFail _ => true
  | _ => false

/-- Reachability restricted to schedules in which nothing interleaves with a
suspended performReconnection: while a rebind is suspended, the only events
allowed are its own resumption. -/
inductive AtomicReachable (cfg : ReconnectConfig) : ConnState → Prop where
  | base : AtomicReachable cfg initialState
  | next {s e s1} : AtomicReachable cfg s → (s.pendingRebind = true → e.isResume = true) →
      step cfg s e = some s1 → AtomicReachable cfg s1

/-- The Connected-state invariant of the specification, strengthened with
the control fact that no rebind is suspended while connected. -/
def ConnectedInv (s : ConnState) : Prop :=
  s.isConnected = true →
    s.currentRetries = 0 ∧ s.isReconnecting = false ∧
    s.connectionTimeout = TimerHandle.null ∧ s.reconnectionTimeout = TimerHandle.null ∧
    s.pendingRebind = false

/-- The configuration of the scenarios in the specification: maxRetries 3,
retryDelayMs 1000, connectionTimeoutMs 2000. -/
def cfgS : ReconnectConfig := { maxRetries := 3, retryDelay := 1000, connectionTimeout := 2000 }

/-- A state in which a reconnection is already in flight. -/
def singleFlightState : ConnState := { initialState with isReconnecting := true }

/-- A state with one counted attempt and a pending reconnection timer. -/
def failingRebindState : ConnState :=
  { initialState with reconnectionTimeout := TimerHandle.pending 1000
                      isReconnecting := true
                      currentRetries := 1 }

/-- A quiescent connected state. -/
def connectedIdleState : ConnState :=
  { initialState with isConnected := true }

/-- The state right after initializing monitoring at clock reading 0. -/
def scenarioStart : ConnState := initializeConnectionMonitoring 0 initialState

/-- Four consecutive close notifications with nothing in between. -/
def fourClosesTrace : List Event :=
  [Event.notify "close" 10000, Event.notify "close" 11000,
   Event.notify "close" 12000, Event.notify "close" 13000]

/-- The state produced by: close at 10000, reconnection timer firing at
11000, an open notification arriving during the rebind suspension at 11500,
and the rebind then resuming and arming a fresh establishment timeout. -/
def connectedWithTimerState : ConnState :=
  { connectionTimeout := TimerHandle.pending 2000
    reconnectionTimeout := TimerHandle.null
    currentClient := true
    isReconnecting := false
    isConnected := true
    currentRetries := 0
    lastConnectionAttempt := 11000
    lastConnectingEvent := 0
    pendingRebind := false }

/-- A scheduling call either leaves the retry counter unchanged or
increments it once, the latter only under the budget ceiling. -/
theorem scheduleReconnection_retries_cases (cfg : ReconnectConfig) (now : Int) (s : ConnState) :
    (scheduleReconnection cfg now s).currentRetries = s.currentRetries ∨
      ((scheduleReconnection cfg now s).currentRetries = s.currentRetries + 1 ∧
        s.currentRetries < cfg.maxRetries) := by
  unfold scheduleReconnection
  split
  · exact Or.inl rfl
  · split
    · exact Or.inl rfl
    · next h => exact Or.inr ⟨rfl, Nat.lt_of_not_le h⟩

/-- A notification other than the two Succeeded tokens either keeps the
retry counter or increments it once under the budget ceiling. -/
theorem handleConnection_retries_cases (cfg : ReconnectConfig) (status : String) (now : Int)
    (s : ConnState) (h2 : status ≠ "open") (h4 : status ≠ "connected") :
    (handleConnection cfg status now s).currentRetries = s.currentRetries ∨
      ((handleConnection cfg status now s).currentRetries = s.currentRetries + 1 ∧
        s.currentRetries < cfg.maxRetries) := by
  by_cases h1 : status = "connecting"
  · left
    simp [handleConnection, h1, setConnectionEstablishmentTimeout, clearConnectionTimeout,
      apply_ite ConnState.currentRetries]
  · by_cases h3 : status = "close"
    · subst h3
      by_cases hIR : s.isReconnecting
      · left
        simp [handleConnection, hIR, clearReconnectionTimeout, clearConnectionTimeout]
      · have hc := scheduleReconnection_retries_cases cfg now
          (clearReconnectionTimeout (clearConnectionTimeout { s with isConnected := false }))
        simp only [clearReconnectionTimeout, clearConnectionTimeout] at hc
        simpa [handleConnection, hIR, clearReconnectionTimeout, clearConnectionTimeout] using hc
    · by_cases h5 : status = "disconnected"
      · subst h5
        by_cases hIR : s.isReconnecting
        · left
          simp [handleConnection, hIR, clearReconnectionTimeout, clearConnectionTimeout]
        · have hc := scheduleReconnection_retries_cases cfg now
            (clearReconnectionTimeout (clearConnectionTimeout { s with isConnected := false }))
          simp only [clearReconnectionTimeout, clearConnectionTimeout] at hc
          simpa [handleConnection, hIR, clearReconnectionTimeout, clearConnectionTimeout] using hc
      · by_cases hcond : s.isConnected = false ∧ s.isReconnecting = false
        · have hc := scheduleReconnection_retries_cases cfg now
            (clearReconnectionTimeout (clearConnectionTimeout s))
          simp only [clearReconnectionTimeout, clearConnectionTimeout] at hc
          simpa [handleConnection, h1, h2, h3, h4, h5, hcond,
            clearReconnectionTimeout, clearConnectionTimeout] using hc
        · left
          simp [handleConnection, h1, h2, h3, h4, h5, hcond]

/-- The establishment-timeout callback either keeps the retry counter or
increments it once under the budget ceiling. -/
theorem connectionTimeoutCallback_retries_cases (cfg : ReconnectConfig) (now : Int)
    (s : ConnState) :
    (connectionTimeoutCallback cfg now s).currentRetries = s.currentRetries ∨
      ((connectionTimeoutCallback cfg now s).currentRetries = s.currentRetries + 1 ∧
        s.currentRetries < cfg.maxRetries) := by
  unfold connectionTimeoutCallback
  split
  · exact scheduleReconnection_retries_cases cfg now s
  · exact Or.inl rfl

/-- Any enabled event outside the Succeeded and re-initialization family
either keeps the retry counter or increments it once under the ceiling. -/
theorem step_retries_cases (cfg : ReconnectConfig) (e : Event) (s s1 : ConnState)
    (he : e.isSucceededOrInit = false) (hs : step cfg s e = some s1) :
    s1.currentRetries = s.currentRetries ∨
      (s1.currentRetries = s.currentRetries + 1 ∧ s.currentRetries < cfg.maxRetries) := by
  cases e with
  | notify status t =>
    by_cases h2 : status = "open"
    · subst h2
      simp [Event.isSucceededOrInit] at he
    · by_cases h4 : status = "connected"
      · subst h4
        simp [Event.isSucceededOrInit] at he
      · have hc := handleConnection_retries_cases cfg status t s h2 h4
        simp only [step, Option.some.injEq] at hs
        rw [← hs]
        exact hc
  | estFire t =>
    cases hct : s.connectionTimeout with
    | pending d =>
      simp only [step, hct, Option.some.injEq] at hs
      rw [← hs]
      simpa using connectionTimeoutCallback_retries_cases cfg t
        { s with connectionTimeout := TimerHandle.fired d }
    | null => simp [step, hct] at hs
    | fired d => simp [step, hct] at hs
  | reconFireOk t =>
    cases hct : s.reconnectionTimeout with
    | pending d =>
      simp only [step, hct, Option.some.injEq] at hs
      rw [← hs]
      simp [performReconnectionStart]
    | null => simp [step, hct] at hs
    | fired d => simp [step, hct] at hs
  | reconFireFail t tS =>
    cases hct : s.reconnectionTimeout with
    | pending d =>
      simp only [step, hct, Option.some.injEq] at hs
      rw [← hs]
      simpa [performReconnectionCatch] using scheduleReconnection_retries_cases cfg tS
        { s with reconnectionTimeout := TimerHandle.fired d
                 lastConnectionAttempt := t
                 currentClient := false
                 isReconnecting := false }
    | null => simp [step, hct] at hs
    | fired d => simp [step, hct] at hs
  | resumeOk =>
    by_cases hp : s.pendingRebind
    · simp only [step, hp, if_true, Option.some.injEq] at hs
      rw [← hs]
      simp [performReconnectionResume, setConnectionEstablishmentTimeout, clearConnectionTimeout]
    · simp [step, hp] at hs
  | resumeFail tS =>
    by_cases hp : s.pendingRebind
    · simp only [step, hp, if_true, Option.some.injEq] at hs
      rw [← hs]
      simpa [performReconnectionCatch] using scheduleReconnection_retries_cases cfg tS
        { s with pendingRebind := false, isReconnecting := false }
    · simp [step, hp] at hs
  | initMonitoring t =>
    simp [Event.isSucceededOrInit] at he

/-- Every enabled event preserves the retry-budget bound. -/
theorem step_retries_le (cfg : ReconnectConfig) (e : Event) (s s1 : ConnState)
    (hs : step cfg s e = some s1) (h : s.currentRetries ≤ cfg.maxRetries) :
    s1.currentRetries ≤ cfg.maxRetries := by
  by_cases he : e.isSucceededOrInit = true
  · cases e with
    | notify status t =>
      by_cases h2 : status = "open"
      · subst h2
        simp only [step, Option.some.injEq] at hs
        rw [← hs]
        simp [handleConnection, clearConnectionTimeout, clearReconnectionTimeout]
      · by_cases h4 : status = "connected"
        · subst h4
          simp only [step, Option.some.injEq] at hs
          rw [← hs]
          simp [handleConnection, clearConnectionTimeout, clearReconnectionTimeout]
        · simp [Event.isSucceededOrInit, h2, h4] at he
    | initMonitoring t =>
      simp only [step, Option.some.injEq] at hs
      rw [← hs]
      simp [initializeConnectionMonitoring]
    | estFire t => simp [Event.isSucceededOrInit] at he
    | reconFireOk t => simp [Event.isSucceededOrInit] at he
    | reconFireFail t tS => simp [Event.isSucceededOrInit] at he
    | resumeOk => simp [Event.isSucceededOrInit] at he
    | resumeFail tS => simp [Event.isSucceededOrInit] at he
  · rcases step_retries_cases cfg e s s1 (by simpa using he) hs with h1 | ⟨h1, h2⟩ <;> omega

/-- A close or disconnected notification processed while isReconnecting is
true only lowers isConnected and nulls both timer handles; the scheduler is
not reached. -/
theorem handleConnection_failed_while_reconnecting (cfg : ReconnectConfig) (now : Int)
    (s : ConnState) (hR : s.isReconnecting = true) :
    handleConnection cfg "close" now s =
      { s with isConnected := false
               connectionTimeout := TimerHandle.null
               reconnectionTimeout := TimerHandle.null } ∧
    handleConnection cfg "disconnected" now s =
      { s with isConnected := false
               connectionTimeout := TimerHandle.null
               reconnectionTimeout := TimerHandle.null } := by
  constructor <;>
    simp [handleConnection, hR, clearConnectionTimeout, clearReconnectionTimeout]

/-- While isReconnecting stays latched and the reconnection handle is null,
any event that cannot lower the flag keeps the handle null. -/
theorem step_nonescape_keeps_blocked (cfg : ReconnectConfig) (e : Event) (s s1 : ConnState)
    (he : e.isEscape = false) (hR : s.isReconnecting = true)
    (hT : s.reconnectionTimeout = TimerHandle.null) (hs : step cfg s e = some s1) :
    s1.isReconnecting = true ∧ s1.reconnectionTimeout = TimerHandle.null := by
  cases e with
  | notify status t =>
    simp only [step, Option.some.injEq] at hs
    rw [← hs]
    by_cases h1 : status = "connecting"
    · subst h1
      constructor
      · simp [handleConnection, setConnectionEstablishmentTimeout, clearConnectionTimeout,
          apply_ite ConnState.isReconnecting, hR]
      · simp [handleConnection, setConnectionEstablishmentTimeout, clearConnectionTimeout,
          apply_ite ConnState.reconnectionTimeout, hT]
    · by_cases h2 : status = "open"
      · subst h2
        simp [Event.isEscape] at he
      · by_cases h3 : status = "close"
        · subst h3
          rw [(handleConnection_failed_while_reconnecting cfg t s hR).1]
          exact ⟨hR, rfl⟩
        · by_cases h4 : status = "connected"
          · subst h4
            simp [Event.isEscape] at he
          · by_cases h5 : status = "disconnected"
            · subst h5
              rw [(handleConnection_failed_while_reconnecting cfg t s hR).2]
              exact ⟨hR, rfl⟩
            · simp [handleConnection, h1, h2, h3, h4, h5, hR, hT]
  | estFire t =>
    cases hct : s.connectionTimeout with
    | pending d =>
      simp only [step, hct, Option.some.injEq] at hs
      rw [← hs]
      simp [connectionTimeoutCallback, hR, hT]
    | null => simp [step, hct] at hs
    | fired d => simp [step, hct] at hs
  | reconFireOk t =>
    simp [step, hT] at hs
  | reconFireFail t tS =>
    simp [Event.isEscape] at he
  | resumeOk =>
    by_cases hp : s.pendingRebind
    · simp only [step, hp, if_true, Option.some.injEq] at hs
      rw [← hs]
      exact ⟨hR, hT⟩
    · simp [step, hp] at hs
  | resumeFail tS =>
    simp [Event.isEscape] at he
  | initMonitoring t =>
    simp [Event.isEscape] at he

/-- Trace closure of the preceding step lemma. -/
theorem runTrace_nonescape_keeps_blocked (cfg : ReconnectConfig) (es : List Event)
    (s s1 : ConnState) (hR : s.isReconnecting = true)
    (hT : s.reconnectionTimeout = TimerHandle.null)
    (hall : ∀ e ∈ es, e.isEscape = false) (hrun : runTrace cfg s es = some s1) :
    s1.isReconnecting = true ∧ s1.reconnectionTimeout = TimerHandle.null := by
  induction es generalizing s with
  | nil =>
    simp only [runTrace, Option.some.injEq] at hrun
    rw [← hrun]
    exact ⟨hR, hT⟩
  | cons e es ih =>
    simp only [runTrace] at hrun
    cases hstep : step cfg s e with
    | none =>
      rw [hstep] at hrun
      cases hrun
    | some s2 =>
      rw [hstep] at hrun
      have h2 := step_nonescape_keeps_blocked cfg e s s2 (hall e (List.mem_cons_self e es))
        hR hT hstep
      exact ih s2 h2.1 h2.2 (fun x hx => hall x (List.mem_cons_of_mem e hx)) hrun

/-- Running an enabled trace from a reachable state stays reachable. -/
theorem runTrace_reachable (cfg : ReconnectConfig) (es : List Event) (s s1 : ConnState)
    (hr : Reachable cfg s) (hrun : runTrace cfg s es = some s1) : Reachable cfg s1 := by
  induction es generalizing s with
  | nil =>
    simp only [runTrace, Option.some.injEq] at hrun
    rw [← hrun]
    exact hr
  | cons e es ih =>
    simp only [runTrace] at hrun
    cases hstep : step cfg s e with
    | none =>
      rw [hstep] at hrun
      cases hrun
    | some s2 =>
      rw [hstep] at hrun
      exact ih s2 (Reachable.next hr hstep) hrun

/-- Scheduling never changes isConnected. -/
theorem scheduleReconnection_isConnected (cfg : ReconnectConfig) (now : Int)
    (s : ConnState) : (scheduleReconnection cfg now s).isConnected = s.isConnected := by
  unfold scheduleReconnection clearReconnectionTimeout
  split
  · rfl
  · split
    · rfl
    · rfl

/-- Scheduling never touches the establishment-timer handle. -/
theorem scheduleReconnection_connectionTimeout (cfg : ReconnectConfig) (now : Int)
    (s : ConnState) :
    (scheduleReconnection cfg now s).connectionTimeout = s.connectionTimeout := by
  unfold scheduleReconnection clearReconnectionTimeout
  split
  · rfl
  · split
    · rfl
    · rfl

/-- Scheduling never touches the rebind-suspension flag. -/
theorem scheduleReconnection_pendingRebind (cfg : ReconnectConfig) (now : Int)
    (s : ConnState) : (scheduleReconnection cfg now s).pendingRebind = s.pendingRebind := by
  unfold scheduleReconnection clearReconnectionTimeout
  split
  · rfl
  · split
    · rfl
    · rfl

/-- Close and disconnected notifications always leave isConnected false. -/
theorem handleConnection_failed_isConnected (cfg : ReconnectConfig) (t : Int)
    (s : ConnState) :
    (handleConnection cfg "close" t s).isConnected = false ∧
    (handleConnection cfg "disconnected" t s).isConnected = false := by
  constructor <;>
    simp [handleConnection, apply_ite ConnState.isConnected, scheduleReconnection_isConnected,
      clearReconnectionTimeout, clearConnectionTimeout]

/-- A connecting notification never changes isConnected. -/
theorem handleConnection_connecting_isConnected (cfg : ReconnectConfig) (t : Int)
    (s : ConnState) :
    (handleConnection cfg "connecting" t s).isConnected = s.isConnected := by
  simp [handleConnection, setConnectionEstablishmentTimeout, clearConnectionTimeout,
    apply_ite ConnState.isConnected]

/-- An unrecognized notification never changes isConnected. -/
theorem handleConnection_default_isConnected (cfg : ReconnectConfig) (status : String)
    (t : Int) (s : ConnState) (h1 : status ≠ "connecting") (h2 : status ≠ "open")
    (h3 : status ≠ "close") (h4 : status ≠ "connected") (h5 : status ≠ "disconnected") :
    (handleConnection cfg status t s).isConnected = s.isConnected := by
  simp [handleConnection, h1, h2, h3, h4, h5, apply_ite ConnState.isConnected,
    scheduleReconnection_isConnected, clearReconnectionTimeout, clearConnectionTimeout]

/-- Every step allowed by the atomic discipline preserves the
Connected-state invariant. -/
theorem atomic_step_preserves_connected_inv (cfg : ReconnectConfig) (e : Event)
    (s s1 : ConnState) (hp : s.pendingRebind = true → e.isResume = true)
    (hs : step cfg s e = some s1) (hI : ConnectedInv s) : ConnectedInv s1 := by
  cases e with
  | notify status t =>
    have hpb : s.pendingRebind = false := by
      cases hq : s.pendingRebind
      · rfl
      · have := hp hq
        simp [Event.isResume] at this
    simp only [step, Option.some.injEq] at hs
    rw [← hs]
    by_cases h1 : status = "connecting"
    · subst h1
      intro hC1
      by_cases hdb : t - s.lastConnectingEvent < MIN_CONNECTING_EVENT_INTERVAL
      · have hseq : handleConnection cfg "connecting" t s = s := by
          simp [handleConnection, hdb]
        rw [hseq] at hC1 ⊢
        exact hI hC1
      · have hCs : s.isConnected = true := by
          rw [← handleConnection_connecting_isConnected cfg t s]
          exact hC1
        obtain ⟨i1, i2, i3, i4, i5⟩ := hI hCs
        have hseq : handleConnection cfg "connecting" t s =
            { s with lastConnectingEvent := t } := by
          simp [handleConnection, hdb, hCs]
        rw [hseq]
        exact ⟨i1, i2, i3, i4, i5⟩
    · by_cases h2 : status = "open"
      · subst h2
        intro hC1
        simp [handleConnection, clearConnectionTimeout, clearReconnectionTimeout, hpb]
      · by_cases h3 : status = "close"
        · subst h3
          intro hC1
          rw [(handleConnection_failed_isConnected cfg t s).1] at hC1
          cases hC1
        · by_cases h4 : status = "connected"
          · subst h4
            intro hC1
            simp [handleConnection, clearConnectionTimeout, clearReconnectionTimeout, hpb]
          · by_cases h5 : status = "disconnected"
            · subst h5
              intro hC1
              rw [(handleConnection_failed_isConnected cfg t s).2] at hC1
              cases hC1
            · intro hC1
              have hCs : s.isConnected = true := by
                rw [← handleConnection_default_isConnected cfg status t s h1 h2 h3 h4 h5]
                exact hC1
              have hcond : ¬ (s.isConnected = false ∧ s.isReconnecting = false) := by
                rw [hCs]
                simp
              have hseq : handleConnection cfg status t s = s := by
                simp [handleConnection, h1, h2, h3, h4, h5, hcond]
              rw [hseq]
              exact hI hCs
  | estFire t =>
    cases hct : s.connectionTimeout with
    | pending d =>
      simp only [step, hct, Option.some.injEq] at hs
      rw [← hs]
      intro hC1
      exfalso
      have hCs : s.isConnected = true := by
        revert hC1
        unfold connectionTimeoutCallback
        split
        · intro hC1
          rw [scheduleReconnection_isConnected] at hC1
          exact hC1
        · intro hC1
          exact hC1
      have hnull := (hI hCs).2.2.1
      rw [hct] at hnull
      cases hnull
    | null => simp [step, hct] at hs
    | fired d => simp [step, hct] at hs
  | reconFireOk t =>
    cases hct : s.reconnectionTimeout with
    | pending d =>
      simp only [step, hct, Option.some.injEq] at hs
      rw [← hs]
      intro hC1
      exfalso
      simp only [performReconnectionStart] at hC1
      have hCs : s.isConnected = true := hC1
      have hnull := (hI hCs).2.2.2.1
      rw [hct] at hnull
      cases hnull
    | null => simp [step, hct] at hs
    | fired d => simp [step, hct] at hs
  | reconFireFail t tS =>
    cases hct : s.reconnectionTimeout with
    | pending d =>
      simp only [step, hct, Option.some.injEq] at hs
      rw [← hs]
      intro hC1
      exfalso
      simp only [performReconnectionCatch] at hC1
      rw [scheduleReconnection_isConnected] at hC1
      have hCs : s.isConnected = true := hC1
      have hnull := (hI hCs).2.2.2.1
      rw [hct] at hnull
      cases hnull
    | null => simp [step, hct] at hs
    | fired d => simp [step, hct] at hs
  | resumeOk =>
    by_cases hpr : s.pendingRebind
    · simp only [step, hpr, if_true, Option.some.injEq] at hs
      rw [← hs]
      intro hC1
      exfalso
      simp only [performReconnectionResume, setConnectionEstablishmentTimeout,
        clearConnectionTimeout] at hC1
      have hCs : s.isConnected = true := hC1
      have hpf := (hI hCs).2.2.2.2
      rw [hpr] at hpf
      cases hpf
    · simp [step, hpr] at hs
  | resumeFail tS =>
    by_cases hpr : s.pendingRebind
    · simp only [step, hpr, if_true, Option.some.injEq] at hs
      rw [← hs]
      intro hC1
      exfalso
      simp only [performReconnectionCatch] at hC1
      rw [scheduleReconnection_isConnected] at hC1
      have hCs : s.isConnected = true := hC1
      have hpf := (hI hCs).2.2.2.2
      rw [hpr] at hpf
      cases hpf
    · simp [step, hpr] at hs
  | initMonitoring t =>
    simp only [step, Option.some.injEq] at hs
    rw [← hs]
    intro hC1
    simp [initializeConnectionMonitoring] at hC1

/-- The Connected-state invariant holds in every atomically reachable
state. -/
theorem atomic_reachable_connected_inv (cfg : ReconnectConfig) (s : ConnState)
    (h : AtomicReachable cfg s) : ConnectedInv s := by
  induction h with
  | base =>
    intro hC0
    cases hC0
  | next hr hp hs ih => exact atomic_step_preserves_connected_inv _ _ _ _ hp hs ih

/-- C1: single-flight. In any controller state with isReconnecting = true
(in particular any reachable one), calling scheduleReconnection returns the
state unchanged: currentRetries is not incremented and no reconnection
timer is armed, the call returning before the budget check. -/
theorem scheduleReconnection_single_flight (cfg : ReconnectConfig) (now : Int) (s : ConnState)
    (h : s.isReconnecting = true) : scheduleReconnection cfg now s = s := by
  simp [scheduleReconnection, h]

/-- C1, witness at a concrete in-flight state. -/
theorem scheduleReconnection_single_flight_witness :
    singleFlightState.isReconnecting = true ∧
      scheduleReconnection cfgS 10000 singleFlightState = singleFlightState :=
  ⟨rfl, scheduleReconnection_single_flight cfgS 10000 singleFlightState rfl⟩

/-- C2, counterexample: with maxRetries = 3, the event trace of four
consecutive close notifications from a freshly initialized controller ends
with currentRetries = 1, not 3: already the second close finds
isReconnecting = true, cancels the pending reconnection timer and schedules
nothing, and the budget-exhausted branch is never reached. -/
theorem four_failures_counterexample :
    (runTrace cfgS scenarioStart fourClosesTrace).map ConnState.currentRetries = some 1 ∧
    (runTrace cfgS scenarioStart
        [Event.notify "close" 10000, Event.notify "close" 11000]).map ConnState.currentRetries ≠
      some 2 ∧
    (runTrace cfgS scenarioStart fourClosesTrace).map ConnState.reconnectionTimeout =
      some TimerHandle.null ∧
    (runTrace cfgS scenarioStart fourClosesTrace).map ConnState.isReconnecting = some true := by
  decide

/-- C2, amended: for four consecutive Failed (close) notifications with
nothing in between, only the first schedules a reconnection attempt,
setting currentRetries to 1 and arming a timer with the documented delay;
each later failure finds isReconnecting = true, cancels any pending
reconnection timer, schedules nothing, and from the second failure on the
state does not change at all, so retry-budget exhaustion is never
reported. -/
theorem four_failures_amended (cfg : ReconnectConfig) (t1 t2 t3 t4 : Int) (s : ConnState)
    (hR : s.isReconnecting = false) (hB : s.currentRetries = 0) (hM : 0 < cfg.maxRetries) :
    (handleConnection cfg "close" t1 s).currentRetries = 1 ∧
    (handleConnection cfg "close" t1 s).isReconnecting = true ∧
    (handleConnection cfg "close" t1 s).reconnectionTimeout =
      TimerHandle.pending
        (cfg.retryDelay + max 0 (MIN_CONNECTION_INTERVAL - (t1 - s.lastConnectionAttempt))) ∧
    handleConnection cfg "close" t2 (handleConnection cfg "close" t1 s) =
      { handleConnection cfg "close" t1 s with
          isConnected := false
          connectionTimeout := TimerHandle.null
          reconnectionTimeout := TimerHandle.null } ∧
    handleConnection cfg "close" t3
        (handleConnection cfg "close" t2 (handleConnection cfg "close" t1 s)) =
      handleConnection cfg "close" t2 (handleConnection cfg "close" t1 s) ∧
    handleConnection cfg "close" t4
        (handleConnection cfg "close" t3
          (handleConnection cfg "close" t2 (handleConnection cfg "close" t1 s))) =
      handleConnection cfg "close" t3
        (handleConnection cfg "close" t2 (handleConnection cfg "close" t1 s)) := by
  have hM2 : ¬ (cfg.maxRetries ≤ s.currentRetries) := by
    rw [hB]
    exact Nat.not_le.mpr hM
  have hMne : cfg.maxRetries ≠ 0 := by omega
  have h1 : (handleConnection cfg "close" t1 s).currentRetries = 1 := by
    simp [handleConnection, hR, hM2, scheduleReconnection, clearConnectionTimeout,
      clearReconnectionTimeout, hB, hMne]
  have h2 : (handleConnection cfg "close" t1 s).isReconnecting = true := by
    simp [handleConnection, hR, hM2, scheduleReconnection, clearConnectionTimeout,
      clearReconnectionTimeout]
  have h3 : (handleConnection cfg "close" t1 s).reconnectionTimeout =
      TimerHandle.pending
        (cfg.retryDelay + max 0 (MIN_CONNECTION_INTERVAL - (t1 - s.lastConnectionAttempt))) := by
    simp [handleConnection, hR, hM2, scheduleReconnection, clearConnectionTimeout,
      clearReconnectionTimeout]
  have h4 := (handleConnection_failed_while_reconnecting cfg t2
    (handleConnection cfg "close" t1 s) h2).1
  have h5 : (handleConnection cfg "close" t2 (handleConnection cfg "close" t1 s)).isReconnecting =
      true := by
    rw [h4]
    exact h2
  have h6 := (handleConnection_failed_while_reconnecting cfg t3
    (handleConnection cfg "close" t2 (handleConnection cfg "close" t1 s)) h5).1
  have h6r : handleConnection cfg "close" t3
      (handleConnection cfg "close" t2 (handleConnection cfg "close" t1 s)) =
      handleConnection cfg "close" t2 (handleConnection cfg "close" t1 s) := by
    rw [h6, h4]
  have h7 : (handleConnection cfg "close" t3
      (handleConnection cfg "close" t2 (handleConnection cfg "close" t1 s))).isReconnecting =
      true := by
    rw [h6r]
    exact h5
  have h8 := (handleConnection_failed_while_reconnecting cfg t4
    (handleConnection cfg "close" t3
      (handleConnection cfg "close" t2 (handleConnection cfg "close" t1 s))) h7).1
  have h8r : handleConnection cfg "close" t4
      (handleConnection cfg "close" t3
        (handleConnection cfg "close" t2 (handleConnection cfg "close" t1 s))) =
      handleConnection cfg "close" t3
        (handleConnection cfg "close" t2 (handleConnection cfg "close" t1 s)) := by
    rw [h8, h6r, h4]
  exact ⟨h1, h2, h3, h4, h6r, h8r⟩

/-- C2, witness of the amended statement on the concrete scenario. -/
theorem four_failures_amended_witness :
    scenarioStart.isReconnecting = false ∧ scenarioStart.currentRetries = 0 ∧
    0 < cfgS.maxRetries ∧
    (handleConnection cfgS "close" 10000 scenarioStart).currentRetries = 1 ∧
    handleConnection cfgS "close" 12000
        (handleConnection cfgS "close" 11000 (handleConnection cfgS "close" 10000 scenarioStart)) =
      handleConnection cfgS "close" 11000 (handleConnection cfgS "close" 10000 scenarioStart) := by
  refine ⟨rfl, rfl, by decide, ?_, ?_⟩
  · exact (four_failures_amended cfgS 10000 11000 12000 13000 scenarioStart rfl rfl
      (by decide)).1
  · exact (four_failures_amended cfgS 10000 11000 12000 13000 scenarioStart rfl rfl
      (by decide)).2.2.2.2.1

/-- C3: retry-budget invariant. In every state reachable from the
module-load state by any sequence of notifications, timer firings, rebind
resumptions and re-initializations, currentRetries is at most maxRetries
(and at least 0, by its type). -/
theorem retry_budget_invariant (cfg : ReconnectConfig) (s : ConnState)
    (h : Reachable cfg s) : s.currentRetries ≤ cfg.maxRetries := by
  induction h with
  | base => exact Nat.zero_le _
  | next hr hs ih => exact step_retries_le cfg _ _ _ hs ih

/-- C3, witness at a concrete reachable state. -/
theorem retry_budget_invariant_witness :
    (handleConnection cfgS "close" 10000 initialState).currentRetries ≤ cfgS.maxRetries :=
  retry_budget_invariant cfgS (handleConnection cfgS "close" 10000 initialState)
    (Reachable.next Reachable.base (show step cfgS initialState (Event.notify "close" 10000) = _ from rfl))

/-- C4: Succeeded postcondition. An open or connected notification, in any
state, nulls both timer handles and leaves the controller connected with
currentRetries = 0 and isReconnecting = false; and no other notification or
timer outcome resets currentRetries to 0 (only the Succeeded tokens and
re-initialization do). -/
theorem succeeded_postcondition (cfg : ReconnectConfig) (now : Int) (s : ConnState) :
    ((handleConnection cfg "open" now s).isConnected = true ∧
      (handleConnection cfg "open" now s).isReconnecting = false ∧
      (handleConnection cfg "open" now s).currentRetries = 0 ∧
      (handleConnection cfg "open" now s).connectionTimeout = TimerHandle.null ∧
      (handleConnection cfg "open" now s).reconnectionTimeout = TimerHandle.null) ∧
    ((handleConnection cfg "connected" now s).isConnected = true ∧
      (handleConnection cfg "connected" now s).isReconnecting = false ∧
      (handleConnection cfg "connected" now s).currentRetries = 0 ∧
      (handleConnection cfg "connected" now s).connectionTimeout = TimerHandle.null ∧
      (handleConnection cfg "connected" now s).reconnectionTimeout = TimerHandle.null) ∧
    (∀ (e : Event) (s1 : ConnState), e.isSucceededOrInit = false →
      step cfg s e = some s1 → s1.currentRetries = 0 → s.currentRetries = 0) := by
  refine ⟨?_, ?_, ?_⟩
  · simp [handleConnection, clearConnectionTimeout, clearReconnectionTimeout]
  · simp [handleConnection, clearConnectionTimeout, clearReconnectionTimeout]
  · intro e s1 he hs h0
    rcases step_retries_cases cfg e s s1 he hs with h | ⟨h, _⟩ <;> omega

/-- C4, witness on concrete states. -/
theorem succeeded_postcondition_witness :
    (handleConnection cfgS "open" 10000 failingRebindState).isConnected = true ∧
    (handleConnection cfgS "open" 10000 failingRebindState).isReconnecting = false ∧
    (handleConnection cfgS "open" 10000 failingRebindState).currentRetries = 0 ∧
    (handleConnection cfgS "open" 10000 failingRebindState).connectionTimeout =
      TimerHandle.null ∧
    (handleConnection cfgS "open" 10000 failingRebindState).reconnectionTimeout =
      TimerHandle.null ∧
    initialState.currentRetries = 0 :=
  ⟨(succeeded_postcondition cfgS 10000 failingRebindState).1.1,
   (succeeded_postcondition cfgS 10000 failingRebindState).1.2.1,
   (succeeded_postcondition cfgS 10000 failingRebindState).1.2.2.1,
   (succeeded_postcondition cfgS 10000 failingRebindState).1.2.2.2.1,
   (succeeded_postcondition cfgS 10000 failingRebindState).1.2.2.2.2,
   (succeeded_postcondition cfgS 99999 initialState).2.2
      (Event.notify "connecting" 99999)
      (handleConnection cfgS "connecting" 99999 initialState) (by decide) rfl (by decide)⟩

/-- C5, counterexample: a reachable state that is connected yet holds an
armed establishment timer, produced by an open notification interleaving
with the suspension of performReconnection at its dynamic import: the
resumed rebind re-arms the establishment timeout after the success already
cleared everything. -/
theorem connected_invariant_counterexample :
    Reachable cfgS connectedWithTimerState ∧
    connectedWithTimerState.isConnected = true ∧
    connectedWithTimerState.connectionTimeout ≠ TimerHandle.null := by
  refine ⟨?_, rfl, by decide⟩
  exact runTrace_reachable cfgS
    [Event.initMonitoring 0, Event.notify "close" 10000, Event.reconFireOk 11000,
     Event.notify "open" 11500, Event.resumeOk]
    initialState connectedWithTimerState Reachable.base (by decide)

/-- C5, amended: restricted to schedules in which no event interleaves with
a suspended performReconnection, every reachable connected state has
currentRetries = 0, isReconnecting = false and both timer handles null. -/
theorem connected_invariant_atomic (cfg : ReconnectConfig) (s : ConnState)
    (h : AtomicReachable cfg s) (hC : s.isConnected = true) :
    s.currentRetries = 0 ∧ s.isReconnecting = false ∧
    s.connectionTimeout = TimerHandle.null ∧ s.reconnectionTimeout = TimerHandle.null := by
  obtain ⟨a, b, c, d2, _⟩ := atomic_reachable_connected_inv cfg s h hC
  exact ⟨a, b, c, d2⟩

/-- C5, witness at a concrete atomically-reachable connected state. -/
theorem connected_invariant_atomic_witness :
    (handleConnection cfgS "open" 5 initialState).isConnected = true ∧
    (handleConnection cfgS "open" 5 initialState).currentRetries = 0 ∧
    (handleConnection cfgS "open" 5 initialState).isReconnecting = false ∧
    (handleConnection cfgS "open" 5 initialState).connectionTimeout = TimerHandle.null ∧
    (handleConnection cfgS "open" 5 initialState).reconnectionTimeout = TimerHandle.null := by
  have hr : AtomicReachable cfgS (handleConnection cfgS "open" 5 initialState) :=
    AtomicReachable.next AtomicReachable.base
      (by
        intro h
        simp [initialState] at h)
      (show step cfgS initialState (Event.notify "open" 5) =
          some (handleConnection cfgS "open" 5 initialState) from rfl)
  have h := connected_invariant_atomic cfgS (handleConnection cfgS "open" 5 initialState) hr
    (by decide)
  exact ⟨by decide, h⟩

/-- C6, counterexample: in a connected state, an unrecognized status token
leaves the controller state completely unchanged, although an effective
scheduler invocation would have changed it; so unrecognized tokens are not
treated as Failed in every controller state. -/
theorem handleConnection_unrecognized_connected_noop :
    ("zombie" : String) ≠ "connecting" ∧ ("zombie" : String) ≠ "open" ∧
    ("zombie" : String) ≠ "close" ∧ ("zombie" : String) ≠ "connected" ∧
    ("zombie" : String) ≠ "disconnected" ∧
    connectedIdleState.isConnected = true ∧
    handleConnection cfgS "zombie" 10000 connectedIdleState = connectedIdleState ∧
    scheduleReconnection cfgS 10000 connectedIdleState ≠ connectedIdleState := by
  refine ⟨by decide, by decide, by decide, by decide, by decide, rfl, ?_, ?_⟩
  · rfl
  · decide

/-- C6, amended: an unrecognized status token attempts recovery only when
the controller is neither connected nor already reconnecting: it then
clears both timers and invokes scheduleReconnection (incrementing the
counter and arming a timer when budget remains); when isConnected or
isReconnecting is true it does nothing. -/
theorem handleConnection_unrecognized (cfg : ReconnectConfig) (status : String) (now : Int)
    (s : ConnState) (h1 : status ≠ "connecting") (h2 : status ≠ "open") (h3 : status ≠ "close")
    (h4 : status ≠ "connected") (h5 : status ≠ "disconnected") :
    (s.isConnected = false → s.isReconnecting = false →
      handleConnection cfg status now s =
        scheduleReconnection cfg now (clearReconnectionTimeout (clearConnectionTimeout s))) ∧
    (s.isConnected = false → s.isReconnecting = false → s.currentRetries < cfg.maxRetries →
      (handleConnection cfg status now s).currentRetries = s.currentRetries + 1 ∧
      (handleConnection cfg status now s).isReconnecting = true) ∧
    (s.isConnected = true ∨ s.isReconnecting = true →
      handleConnection cfg status now s = s) := by
  refine ⟨?_, ?_, ?_⟩
  · intro hC hR
    simp [handleConnection, h1, h2, h3, h4, h5, hC, hR]
  · intro hC hR hB
    have hB2 : ¬ (cfg.maxRetries ≤ s.currentRetries) := Nat.not_le.mpr hB
    simp [handleConnection, h1, h2, h3, h4, h5, hC, hR, scheduleReconnection,
      clearReconnectionTimeout, clearConnectionTimeout, hB2]
  · intro hOr
    rcases hOr with hC | hR
    · simp [handleConnection, h1, h2, h3, h4, h5, hC]
    · simp [handleConnection, h1, h2, h3, h4, h5, hR]

/-- C6, witness of the amended statement. -/
theorem handleConnection_unrecognized_witness :
    initialState.isConnected = false ∧ initialState.isReconnecting = false ∧
    initialState.currentRetries < cfgS.maxRetries ∧
    (handleConnection cfgS "zombie" 10000 initialState).currentRetries =
      initialState.currentRetries + 1 ∧
    (handleConnection cfgS "zombie" 10000 initialState).isReconnecting = true := by
  refine ⟨rfl, rfl, by decide, ?_⟩
  exact (handleConnection_unrecognized cfgS "zombie" 10000 initialState (by decide) (by decide)
    (by decide) (by decide) (by decide)).2.1 rfl rfl (by decide)

/-- C7: when scheduleReconnection passes the single-flight and budget
checks at clock reading now, the armed reconnection delay is exactly
retryDelay + max(0, 5000 - (now - lastConnectionAttempt)); the delay is
never below retryDelay and is independent of the retry counter, hence not
exponential backoff. -/
theorem scheduleReconnection_delay_formula (cfg : ReconnectConfig) (now : Int) (s : ConnState)
    (hR : s.isReconnecting = false) (hB : s.currentRetries < cfg.maxRetries) :
    (scheduleReconnection cfg now s).reconnectionTimeout =
      TimerHandle.pending
        (cfg.retryDelay + max 0 (MIN_CONNECTION_INTERVAL - (now - s.lastConnectionAttempt))) ∧
    MIN_CONNECTION_INTERVAL = 5000 ∧
    cfg.retryDelay ≤
      cfg.retryDelay + max 0 (MIN_CONNECTION_INTERVAL - (now - s.lastConnectionAttempt)) ∧
    (∀ n : Nat, n < cfg.maxRetries →
      (scheduleReconnection cfg now { s with currentRetries := n }).reconnectionTimeout =
        (scheduleReconnection cfg now s).reconnectionTimeout) := by
  have hB2 : ¬ (cfg.maxRetries ≤ s.currentRetries) := Nat.not_le.mpr hB
  refine ⟨?_, rfl, ?_, ?_⟩
  · simp [scheduleReconnection, hR, hB2, clearReconnectionTimeout]
  · have : (0 : Int) ≤ max 0 (MIN_CONNECTION_INTERVAL - (now - s.lastConnectionAttempt)) :=
      le_max_left 0 _
    omega
  · intro n hn
    have hn2 : ¬ (cfg.maxRetries ≤ n) := Nat.not_le.mpr hn
    simp [scheduleReconnection, hR, hB2, hn2, clearReconnectionTimeout]

/-- C7, witness at a concrete state and clock reading. -/
theorem scheduleReconnection_delay_formula_witness :
    initialState.isReconnecting = false ∧ initialState.currentRetries < cfgS.maxRetries ∧
    (scheduleReconnection cfgS 10000 initialState).reconnectionTimeout =
      TimerHandle.pending
        (cfgS.retryDelay + max 0 (MIN_CONNECTION_INTERVAL - (10000 - initialState.lastConnectionAttempt))) := by
  refine ⟨rfl, by decide, ?_⟩
  exact (scheduleReconnection_delay_formula cfgS 10000 initialState rfl (by decide)).1

/-- C8: a connecting notification arriving within the 1000 ms debounce
window leaves the whole state unchanged; an accepted one records its clock
reading in lastConnectingEvent and at most continues to the
establishment-timeout monitor; two connecting notifications less than the
window apart update lastConnectingEvent exactly once. -/
theorem handleConnection_connecting_debounce (cfg : ReconnectConfig) (s : ConnState)
    (now now1 now2 : Int) :
    (now - s.lastConnectingEvent < MIN_CONNECTING_EVENT_INTERVAL →
      handleConnection cfg "connecting" now s = s) ∧
    (MIN_CONNECTING_EVENT_INTERVAL ≤ now - s.lastConnectingEvent →
      (handleConnection cfg "connecting" now s).lastConnectingEvent = now ∧
      (handleConnection cfg "connecting" now s =
          setConnectionEstablishmentTimeout cfg.connectionTimeout { s with lastConnectingEvent := now } ∨
        handleConnection cfg "connecting" now s = { s with lastConnectingEvent := now })) ∧
    (MIN_CONNECTING_EVENT_INTERVAL ≤ now1 - s.lastConnectingEvent →
      now2 - now1 < MIN_CONNECTING_EVENT_INTERVAL →
      (handleConnection cfg "connecting" now1 s).lastConnectingEvent = now1 ∧
      handleConnection cfg "connecting" now2 (handleConnection cfg "connecting" now1 s) =
        handleConnection cfg "connecting" now1 s) := by
  have hlast : ∀ m : Int, MIN_CONNECTING_EVENT_INTERVAL ≤ m - s.lastConnectingEvent →
      (handleConnection cfg "connecting" m s).lastConnectingEvent = m := by
    intro m hm
    have hm2 : ¬ (m - s.lastConnectingEvent < MIN_CONNECTING_EVENT_INTERVAL) := not_lt.mpr hm
    simp [handleConnection, hm2, setConnectionEstablishmentTimeout, clearConnectionTimeout,
      apply_ite ConnState.lastConnectingEvent]
  refine ⟨?_, ?_, ?_⟩
  · intro h
    simp [handleConnection, h]
  · intro h
    have h2 : ¬ (now - s.lastConnectingEvent < MIN_CONNECTING_EVENT_INTERVAL) := not_lt.mpr h
    refine ⟨hlast now h, ?_⟩
    by_cases hc : s.connectionTimeout.isSet = false ∧ s.isConnected = false
    · left
      simp [handleConnection, h2, hc]
    · right
      simp [handleConnection, h2, hc]
  · intro h1 h2
    refine ⟨hlast now1 h1, ?_⟩
    have hl := hlast now1 h1
    generalize hgen : handleConnection cfg "connecting" now1 s = t at hl ⊢
    have h3 : now2 - t.lastConnectingEvent < MIN_CONNECTING_EVENT_INTERVAL := by
      rw [hl]
      exact h2
    simp [handleConnection, h3]

/-- C8, witness on concrete clock readings. -/
theorem handleConnection_connecting_debounce_witness :
    (500 : Int) - initialState.lastConnectingEvent < MIN_CONNECTING_EVENT_INTERVAL ∧
    handleConnection cfgS "connecting" 500 initialState = initialState ∧
    MIN_CONNECTING_EVENT_INTERVAL ≤ (2000 : Int) - initialState.lastConnectingEvent ∧
    (2500 : Int) - 2000 < MIN_CONNECTING_EVENT_INTERVAL ∧
    (handleConnection cfgS "connecting" 2000 initialState).lastConnectingEvent = 2000 ∧
    handleConnection cfgS "connecting" 2500 (handleConnection cfgS "connecting" 2000 initialState) =
      handleConnection cfgS "connecting" 2000 initialState := by
  refine ⟨by decide, ?_, by decide, by decide, ?_, ?_⟩
  · exact (handleConnection_connecting_debounce cfgS initialState 500 0 0).1 (by decide)
  · exact ((handleConnection_connecting_debounce cfgS initialState 0 2000 2500).2.2 (by decide) (by decide)).1
  · exact ((handleConnection_connecting_debounce cfgS initialState 0 2000 2500).2.2 (by decide) (by decide)).2

/-- C9: a throw inside performReconnection, whether from the client
constructor before the suspension or from listener attachment after it,
always yields a successor state (nothing propagates) equal to clearing
isReconnecting and re-invoking scheduleReconnection, which is gated by the
same shared retry budget: it does nothing when the budget is exhausted and
otherwise increments the same counter, staying within maxRetries. -/
theorem performReconnection_failure_recovery (cfg : ReconnectConfig) (d now nowS : Int)
    (s : ConnState) (h1 : s.reconnectionTimeout = TimerHandle.pending d) :
    step cfg s (Event.reconFireFail now nowS) =
      some (scheduleReconnection cfg nowS
        { s with reconnectionTimeout := TimerHandle.fired d
                 lastConnectionAttempt := now
                 currentClient := false
                 isReconnecting := false }) ∧
    (s.pendingRebind = true →
      step cfg s (Event.resumeFail nowS) =
        some (scheduleReconnection cfg nowS { s with pendingRebind := false, isReconnecting := false })) ∧
    (∀ x : ConnState, x.isReconnecting = false → cfg.maxRetries ≤ x.currentRetries →
      scheduleReconnection cfg nowS x = x) ∧
    (∀ x : ConnState, x.isReconnecting = false → x.currentRetries < cfg.maxRetries →
      (scheduleReconnection cfg nowS x).currentRetries = x.currentRetries + 1 ∧
      (scheduleReconnection cfg nowS x).currentRetries ≤ cfg.maxRetries ∧
      (scheduleReconnection cfg nowS x).isReconnecting = true) := by
  refine ⟨?_, ?_, ?_, ?_⟩
  · simp [step, h1, performReconnectionCatch]
  · intro hp
    simp [step, hp, performReconnectionCatch]
  · intro x hx hmax
    simp [scheduleReconnection, hx, hmax]
  · intro x hx hlt
    have hlt2 : ¬ (cfg.maxRetries ≤ x.currentRetries) := Nat.not_le.mpr hlt
    simp [scheduleReconnection, hx, hlt2, clearReconnectionTimeout]
    omega

/-- C9, witness at a concrete failing rebind. -/
theorem performReconnection_failure_recovery_witness :
    failingRebindState.reconnectionTimeout = TimerHandle.pending 1000 ∧
    step cfgS failingRebindState (Event.reconFireFail 20000 20001) =
      some (scheduleReconnection cfgS 20001
        { failingRebindState with
            reconnectionTimeout := TimerHandle.fired 1000
            lastConnectionAttempt := 20000
            currentClient := false
            isReconnecting := false }) :=
  ⟨rfl, (performReconnection_failure_recovery cfgS 1000 20000 20001 failingRebindState rfl).1⟩

/-- C10: a close or disconnected notification processed while
isReconnecting = true cancels the pending reconnection timer, arms no
replacement and never reaches the scheduler; from the resulting state,
along any continuation free of the events that lower isReconnecting (a
Succeeded notification, a rebind construction or attachment failure, or
re-initialization), the reconnection handle stays null and no
performReconnection start event is ever enabled. -/
theorem failed_notification_blocks_reconnection (cfg : ReconnectConfig) (now : Int)
    (s : ConnState) (hR : s.isReconnecting = true) :
    (handleConnection cfg "close" now s =
        { s with isConnected := false
                 connectionTimeout := TimerHandle.null
                 reconnectionTimeout := TimerHandle.null } ∧
      handleConnection cfg "disconnected" now s =
        { s with isConnected := false
                 connectionTimeout := TimerHandle.null
                 reconnectionTimeout := TimerHandle.null }) ∧
    (∀ (es : List Event) (s1 : ConnState), (∀ e ∈ es, e.isEscape = false) →
      runTrace cfg (handleConnection cfg "close" now s) es = some s1 →
      s1.isReconnecting = true ∧ s1.reconnectionTimeout = TimerHandle.null ∧
      (∀ m mS : Int, step cfg s1 (Event.reconFireOk m) = none ∧
        step cfg s1 (Event.reconFireFail m mS) = none)) := by
  have hfr := handleConnection_failed_while_reconnecting cfg now s hR
  refine ⟨hfr, ?_⟩
  intro es s1 hall hrun
  have hstart1 : (handleConnection cfg "close" now s).isReconnecting = true := by
    rw [hfr.1]
    exact hR
  have hstart2 : (handleConnection cfg "close" now s).reconnectionTimeout =
      TimerHandle.null := by
    rw [hfr.1]
  have hend := runTrace_nonescape_keeps_blocked cfg es (handleConnection cfg "close" now s) s1
    hstart1 hstart2 hall hrun
  refine ⟨hend.1, hend.2, ?_⟩
  intro m mS
  constructor
  · simp [step, hend.2]
  · simp [step, hend.2]

/-- C10, witness on a concrete state and continuation. -/
theorem failed_notification_blocks_reconnection_witness :
    failingRebindState.isReconnecting = true ∧
    handleConnection cfgS "close" 20000 failingRebindState =
      { failingRebindState with
          isConnected := false
          connectionTimeout := TimerHandle.null
          reconnectionTimeout := TimerHandle.null } ∧
    (runTrace cfgS (handleConnection cfgS "close" 20000 failingRebindState)
        [Event.notify "connecting" 30000, Event.notify "close" 31000]).map
      ConnState.reconnectionTimeout = some TimerHandle.null := by
  have h := failed_notification_blocks_reconnection cfgS 20000 failingRebindState rfl
  refine ⟨rfl, h.1.1, ?_⟩
  have h2 := h.2 [Event.notify "connecting" 30000, Event.notify "close" 31000]
  cases hrun : runTrace cfgS (handleConnection cfgS "close" 20000 failingRebindState)
      [Event.notify "connecting" 30000, Event.notify "close" 31000] with
  | none =>
    exact absurd hrun (by decide)
  | some sEnd =>
    have h3 := h2 sEnd (by decide) hrun
    simp [h3.2.1]

end StealthCompanion
